import Mathlib

/-
  Verification of the report subcommand in
  src/runtime_src/core/tools/xbutil2/OO_Reports.cpp.

  The C++ code is shallowly embedded: boost property trees become the
  inductive `Ptree`, the two renderers become functions returning the text
  written to standard output (an `Except` models the exceptions thrown by
  ptree field lookups), and `OO_Reports.execute` becomes a function that
  produces the ordered trace of observable actions (writes to stdout and
  stderr, the device-lookup call, the renderer invocations, usage
  printing) together with the control-flow outcome.
-/

set_option autoImplicit false

namespace OOReports

/-- A boost property tree: a data string plus an ordered list of
keyed children.  `get_child`, `get` and emptiness checks below mirror the
boost operations used by OO_Reports.cpp. -/
inductive Ptree where
  | node : String → List (String × Ptree) → Ptree
deriving Repr

/-- The data string stored at a ptree node. -/
def Ptree.data : Ptree → String
  | .node d _ => d

/-- The ordered keyed children of a ptree node. -/
def Ptree.children : Ptree → List (String × Ptree)
  | .node _ cs => cs

/-- The default-constructed empty ptree (`bpt empty_tree` in the source). -/
def emptyPtree : Ptree := .node "" []

/-- `pt.get_child(key, default)`: the first child with the given key, or
the default tree when no such child exists. -/
def Ptree.get_child (pt : Ptree) (key : String) (dflt : Ptree) : Ptree :=
  match pt.children.find? (fun kc => kc.1 == key) with
  | some kc => kc.2
  | none => dflt

/-- `pt.get<std::string>(key)`: the data of the first child with the given
key; boost throws `ptree_bad_path` when the key is absent, modelled as
`Except.error`. -/
def Ptree.get (pt : Ptree) (key : String) : Except String String :=
  match pt.children.find? (fun kc => kc.1 == key) with
  | some kc => .ok kc.2.data
  | none => .error ("No such node (" ++ key ++ ")")

/-- `pt.empty()`: true when the node has no children. -/
def Ptree.isEmpty (pt : Ptree) : Bool := pt.children.isEmpty

/-- boost::format "%-Ns": left-justify in a field of width `w`
(no truncation when the string is longer). -/
def padRight (s : String) (w : Nat) : String :=
  s ++ String.mk (List.replicate (w - s.data.length) ' ')

/-- boost::format "%Ns": right-justify in a field of width `w`. -/
def padLeft (s : String) (w : Nat) : String :=
  String.mk (List.replicate (w - s.data.length) ' ') ++ s

/-- `s` starts with `p` (on the underlying character lists). -/
def startsWithStr (s p : String) : Bool :=
  s.data.take p.data.length == p.data

/-- `p` occurs as a contiguous prefix at some position of `l`. -/
def listHasInfix (p : List Char) : List Char → Bool
  | [] => p.isEmpty
  | c :: t => p.isPrefixOf (c :: t) || listHasInfix p t

/-- `p` occurs as a contiguous substring of `s`. -/
def containsStr (s p : String) : Bool :=
  listHasInfix p.data s.data

/-- A JSON value, as produced by boost::property_tree::write_json: ptree
leaves become strings, nodes whose child keys are all empty become arrays,
all other nodes become objects. -/
inductive Json where
  | str : String → Json
  | arr : List Json → Json
  | obj : List (String × Json) → Json
deriving Repr

/-- boost json_parser create_escapes, restricted to the escapes relevant
here: backslash and double quote. -/
def createEscapes (s : String) : String :=
  String.mk (s.data.flatMap (fun c =>
    if c = '"' then ['\\', '"']
    else if c = '\\' then ['\\', '\\']
    else [c]))

mutual

/-- The JSON value that boost write_json produces for a ptree: a childless
node is a string value, a node all of whose child keys are empty is an
array, any other node is an object. -/
def ptreeToJson : Ptree → Json
  | .node d cs =>
    if cs.isEmpty then .str d
    else if cs.all (fun kc => kc.1 == "") then .arr (ptreeListToJson cs)
    else .obj (ptreeListToJsonKV cs)

/-- The array elements for a ptree child list. -/
def ptreeListToJson : List (String × Ptree) → List Json
  | [] => []
  | kc :: rest => ptreeToJson kc.2 :: ptreeListToJson rest

/-- The object members for a ptree child list. -/
def ptreeListToJsonKV : List (String × Ptree) → List (String × Json)
  | [] => []
  | kc :: rest => (kc.1, ptreeToJson kc.2) :: ptreeListToJsonKV rest

end

/-- Pretty-printing indentation: 4 spaces per level. -/
def fourSpaces (n : Nat) : String := String.mk (List.replicate (4 * n) ' ')

mutual

/-- Pretty printer for a JSON value at a given indentation level,
following boost write_json_helper. -/
def renderJson : Json → Nat → String
  | .str s, _ => "\"" ++ createEscapes s ++ "\""
  | .arr es, ind => "[\n" ++ renderJsonList es (ind + 1) ++ "\n" ++ fourSpaces ind ++ "]"
  | .obj ms, ind =>
    "\x7b\n" ++ renderJsonMembers ms (ind + 1) ++ "\n" ++ fourSpaces ind ++ "\x7d"

/-- Array elements, one per line, comma separated. -/
def renderJsonList : List Json → Nat → String
  | [], _ => ""
  | [j], ind => fourSpaces ind ++ renderJson j ind
  | j :: rest, ind =>
    fourSpaces ind ++ renderJson j ind ++ ",\n" ++ renderJsonList rest ind

/-- Object members, one per line, comma separated. -/
def renderJsonMembers : List (String × Json) → Nat → String
  | [], _ => ""
  | [m], ind => fourSpaces ind ++ "\"" ++ createEscapes m.1 ++ "\": " ++ renderJson m.2 ind
  | m :: rest, ind =>
    fourSpaces ind ++ "\"" ++ createEscapes m.1 ++ "\": " ++ renderJson m.2 ind
      ++ ",\n" ++ renderJsonMembers rest ind

end

/-- boost::property_tree::write_json(stream, pt, pretty=true): the pretty
document followed by the std::endl the writer appends. -/
def write_json (pt : Ptree) : String :=
  renderJson (ptreeToJson pt) 0 ++ "\n"

/-- The body of the loop in print_clock_info: one output line per clock
entry, formatted by boost::format "  %-23s: %3s MHz\n" from the fields
"id" and "freq_mhz" of the entry; a missing field raises `ptree_bad_path`.
-/
def formatClockLines : List (String × Ptree) → Except String String
  | [] => .ok ""
  | kc :: rest => do
    let cid ← kc.2.get "id"
    let freq ← kc.2.get "freq_mhz"
    let tail ← formatClockLines rest
    .ok ("  " ++ padRight cid 23 ++ ": " ++ padLeft freq 3 ++ " MHz\n" ++ tail)

/-- print_clock_info (OO_Reports.cpp lines 23-48), parametrised by the
tree returned by `xrt_core::platform::get_clock_info` and the json flag.
Returns the full text written to std::cout.  Note the source buffers the
"Clocks" header in a stringstream `ss` and, on the json branch, writes the
json document directly to std::cout without ever flushing `ss`. -/
def print_clock_info (clocks : Ptree) (is_json : Bool) : Except String String :=
  let pt_clock_array := clocks.get_child "clocks" emptyPtree
  if pt_clock_array.isEmpty then
    .ok ("Clocks\n" ++ "  No clock information available\n\n")
  else if is_json then
    .ok (write_json clocks)
  else do
    let lines ← formatClockLines pt_clock_array.children
    .ok ("Clocks\n" ++ lines)

/-- Modelled from the spec: cell justification used by the Table2D
header descriptors (the Table2D implementation lives in
tools/common/Table2D, which is not part of the sources here; the spec
says all telemetry fields are left-justified). -/
inductive Justification where
  | left
  | right
deriving Repr, DecidableEq

/-- Modelled from the spec: a Table2D column header, a caption plus its
justification. -/
structure HeaderData where
  name : String
  just : Justification
deriving Repr, DecidableEq

/-- Modelled from the spec: the Table2D accumulator — the fixed column
headers and the data rows added so far, in insertion order. -/
structure Table2D where
  headers : List HeaderData
  entries : List (List String)
deriving Repr, DecidableEq

/-- Modelled from the spec: Table2D::addEntry appends one data row. -/
def Table2D.addEntry (t : Table2D) (row : List String) : Table2D :=
  { t with entries := t.entries ++ [row] }

/-- Modelled from the spec: the width of column `j` — wide enough for the
header caption and every cell of that column. -/
def Table2D.colWidth (t : Table2D) (j : Nat) : Nat :=
  (t.entries.map (fun r => (r.getD j "").data.length)).foldl max
    ((t.headers.getD j ⟨"", .left⟩).name.data.length)

/-- Modelled from the spec: one rendered row — each cell left-justified
to its column width, cells separated by two spaces. -/
def Table2D.renderRow (t : Table2D) (cells : List String) : String :=
  String.intercalate "  "
    ((List.range t.headers.length).map (fun j => padRight (cells.getD j "") (t.colWidth j)))

/-- Modelled from the spec: the rendered table as a list of lines — the
header row followed by one line per data row, each line carrying the
left margin. -/
def Table2D.toLines (t : Table2D) (margin : String) : List String :=
  (margin ++ t.renderRow (t.headers.map (fun h => h.name)))
    :: t.entries.map (fun r => margin ++ t.renderRow r)

/-- Modelled from the spec: Table2D::toString — the lines of the table, each
terminated by a newline. -/
def Table2D.toString (t : Table2D) (margin : String) : String :=
  String.join ((t.toLines margin).map (fun l => l ++ "\n"))

/-- The column headers built in print_preemption_telemetry
(OO_Reports.cpp lines 70-77). -/
def preempt_headers : List HeaderData :=
  [⟨"User Task", .left⟩, ⟨"Ctx ID", .left⟩, ⟨"Set Hints", .left⟩,
   ⟨"Unset Hints", .left⟩, ⟨"Checkpoint Events", .left⟩,
   ⟨"Frame Boundary Events", .left⟩]

/-- The six telemetry fields read from one hardware-context entry, in the
order the source pushes them into `rtos_data` (OO_Reports.cpp lines
81-88). -/
def contextRow (pt : Ptree) : Except String (List String) := do
  let a ← pt.get "user_task"
  let b ← pt.get "slot_index"
  let c ← pt.get "preemption_flag_set"
  let d ← pt.get "preemption_flag_unset"
  let e ← pt.get "preemption_checkpoint_event"
  let f ← pt.get "preemption_frame_boundary_events"
  .ok [a, b, c, d, e, f]

/-- The loop of print_preemption_telemetry: add one table row per context
entry, in iteration order. -/
def addTelemetryRows : List (String × Ptree) → Table2D → Except String Table2D
  | [], t => .ok t
  | kc :: rest, t => do
    let row ← contextRow kc.2
    addTelemetryRows rest (t.addEntry row)

/-- print_preemption_telemetry (OO_Reports.cpp lines 50-95), parametrised
by the tree returned by `xrt_core::telemetry::preemption_telemetry_info`
and the json flag.  Returns the full text written to std::cout. -/
def print_preemption_telemetry (telemetry_pt : Ptree) (is_json : Bool) :
    Except String String :=
  let telemetry_array := telemetry_pt.get_child "telemetry" emptyPtree
  if telemetry_array.isEmpty then
    .ok ("Premption Telemetry Data\n" ++ " No hardware contexts running on device\n\n")
  else if is_json then
    .ok (write_json telemetry_pt)
  else do
    let t ← addTelemetryRows telemetry_array.children ⟨preempt_headers, []⟩
    .ok ("Premption Telemetry Data\n" ++ t.toString "  " ++ "\n")

/-- ASCII lower-casing of a string, as boost to_lower_copy and
boost::iequals do per character. -/
def strToLower (s : String) : String := String.mk (s.data.map Char.toLower)

/-- boost::iequals: case-insensitive string equality. -/
def iequals (a b : String) : Bool := strToLower a == strToLower b

/-- One observable action of OO_Reports::execute, in program order. -/
inductive Event where
  | printHelp
  | stdoutWrite : String → Event
  | stderrWrite : String → Event
  | getDevice : String → Bool → Event
  | renderClocks : Bool → Event
  | renderTelemetry : Bool → Event
deriving Repr, DecidableEq

/-- How OO_Reports::execute returns to its caller. -/
inductive Outcome where
  /-- Normal return. -/
  | success
  /-- `throw xrt_core::error(std::errc::operation_canceled)`. -/
  | cancelled
  /-- An exception that this function does not catch (a ptree lookup
  failure inside a renderer), carrying its message. -/
  | uncaught : String → Outcome
deriving Repr, DecidableEq

/-- The option state produced by process_arguments: the four members
m_device, m_action, m_help, m_json of OO_Reports. -/
structure ParsedOpts where
  m_device : String
  m_action : String
  m_help : Bool
  m_json : Bool
deriving Repr

/-- The external collaborators of OO_Reports::execute: the device lookup
(whose failure message models the std::runtime_error it may throw) and
the two data-fetch results for the resolved device. -/
structure World where
  lookup : String → Except String Unit
  clocks : Ptree
  telemetry : Ptree

/-- OO_Reports::execute (OO_Reports.cpp lines 122-177): the ordered trace
of observable actions and the control-flow outcome.  `rawOpts` is the
token list `_options` scanned for a literal "--help"; `opts` is the
member state after process_arguments. -/
def execute (w : World) (rawOpts : List String) (opts : ParsedOpts) :
    List Event × Outcome :=
  if rawOpts.contains "--help" then
    ([.printHelp], .success)
  else if opts.m_help then
    ([.printHelp], .success)
  else if opts.m_action = "" then
    ([.stderrWrite "ERROR: the required argument for option \x27--report\x27 is missing\n",
      .printHelp], .cancelled)
  else
    let arg := strToLower opts.m_device
    match w.lookup arg with
    | .error msg =>
      ([.getDevice arg true, .stderrWrite ("ERROR: " ++ msg ++ "\n")], .cancelled)
    | .ok _ =>
      if iequals opts.m_action "clocks" then
        match print_clock_info w.clocks opts.m_json with
        | .ok out =>
          ([.getDevice arg true, .renderClocks opts.m_json, .stdoutWrite out], .success)
        | .error e =>
          ([.getDevice arg true, .renderClocks opts.m_json], .uncaught e)
      else if iequals opts.m_action "preemption" then
        match print_preemption_telemetry w.telemetry opts.m_json with
        | .ok out =>
          ([.getDevice arg true, .renderTelemetry opts.m_json, .stdoutWrite out], .success)
        | .error e =>
          ([.getDevice arg true, .renderTelemetry opts.m_json], .uncaught e)
      else
        ([.getDevice arg true,
          .stderrWrite ("\nERROR: " ++ ("Invalid report value: \x27" ++ opts.m_action ++ "\x27\n") ++ "\n"),
          .printHelp], .cancelled)

/-- Recogniser for stderr events. -/
def isStderrEvent : Event → Bool
  | .stderrWrite _ => true
  | _ => false

/-- Recogniser for renderer invocations. -/
def isRenderEvent : Event → Bool
  | .renderClocks _ => true
  | .renderTelemetry _ => true
  | _ => false

/-- Recogniser for device-lookup calls. -/
def isGetDeviceEvent : Event → Bool
  | .getDevice _ _ => true
  | _ => false

/-! Shaped inputs: the trees the two fetchers hand to the renderers.  A
clock-info tree has one child "clocks" holding an array (empty-keyed
children); each element carries the fields "id" and "freq_mhz".  A
telemetry tree has one child "telemetry" whose elements carry the six
context fields. -/

/-- One clock entry as get_clock_info produces it. -/
def mkClock (cid freq : String) : Ptree :=
  .node "" [("id", .node cid []), ("freq_mhz", .node freq [])]

/-- A clock-info tree holding the given entry subtrees. -/
def mkClocksOf (entries : List Ptree) : Ptree :=
  .node "" [("clocks", .node "" (entries.map (fun t => ("", t))))]

/-- A clock-info tree holding one entry per (id, frequency) pair. -/
def mkClocksTree (ps : List (String × String)) : Ptree :=
  .node "" [("clocks", .node "" (ps.map (fun p => ("", mkClock p.1 p.2))))]

/-- The table line print_clock_info emits for one (id, frequency) pair. -/
def clockLine (p : String × String) : String :=
  "  " ++ padRight p.1 23 ++ ": " ++ padLeft p.2 3 ++ " MHz\n"

/-- Concatenation of a list of strings, cons-structured. -/
def concatStrs : List String → String
  | [] => ""
  | s :: rest => s ++ concatStrs rest

/-- The six counters of one hardware context, as fetched by
preemption_telemetry_info. -/
structure TelemetryCtx where
  user_task : String
  slot_index : String
  flag_set : String
  flag_unset : String
  checkpoint : String
  frame_boundary : String
deriving Repr, DecidableEq

/-- One context entry as preemption_telemetry_info produces it. -/
def mkContext (c : TelemetryCtx) : Ptree :=
  .node "" [("user_task", .node c.user_task []),
            ("slot_index", .node c.slot_index []),
            ("preemption_flag_set", .node c.flag_set []),
            ("preemption_flag_unset", .node c.flag_unset []),
            ("preemption_checkpoint_event", .node c.checkpoint []),
            ("preemption_frame_boundary_events", .node c.frame_boundary [])]

/-- The table row print_preemption_telemetry builds for one context. -/
def ctxRow (c : TelemetryCtx) : List String :=
  [c.user_task, c.slot_index, c.flag_set, c.flag_unset, c.checkpoint, c.frame_boundary]

/-- A telemetry tree holding the given contexts. -/
def mkTelemetryTree (ctxs : List TelemetryCtx) : Ptree :=
  .node "" [("telemetry", .node "" (ctxs.map (fun c => ("ctx", mkContext c))))]

/-- The table print_preemption_telemetry accumulates for the contexts. -/
def preemptionTable (ctxs : List TelemetryCtx) : Table2D :=
  ⟨preempt_headers, ctxs.map ctxRow⟩

section Lemmas

/-- String append acts as list append on the character data. -/
theorem data_append (a b : String) : (a ++ b).data = a.data ++ b.data := by
  cases a
  cases b
  rfl

/-- The loop lines for a shaped clock list. -/
theorem formatClockLines_map (ps : List (String × String)) :
    formatClockLines (ps.map (fun p => ("", mkClock p.1 p.2))) =
      .ok (concatStrs (ps.map clockLine)) := by
  induction ps with
  | nil => rfl
  | cons p ps ih =>
    have h1 : formatClockLines (List.map (fun p => ("", mkClock p.1 p.2)) (p :: ps))
        = Except.bind (formatClockLines (List.map (fun p => ("", mkClock p.1 p.2)) ps))
            (fun tail => Except.ok (clockLine p ++ tail)) := rfl
    rw [h1, ih]
    rfl

/-- The serialized array has one element per ptree child. -/
theorem ptreeListToJson_length (cs : List (String × Ptree)) :
    (ptreeListToJson cs).length = cs.length := by
  induction cs with
  | nil => simp [ptreeListToJson]
  | cons kc rest ih => simp [ptreeListToJson, ih]

/-- All keys of an array-shaped child list are empty. -/
theorem allKeysEmpty (entries : List Ptree) :
    (entries.map (fun t => (("" : String), t))).all (fun kc => kc.1 == "") = true := by
  simp

/-- The JSON value of a shaped clock-info tree: an object whose single
member "clocks" is an array with one element per entry. -/
theorem ptreeToJson_mkClocksOf (entries : List Ptree) (hne : entries ≠ []) :
    ptreeToJson (mkClocksOf entries)
      = .obj [("clocks", .arr (ptreeListToJson (entries.map (fun t => ("", t)))))] := by
  cases entries with
  | nil => exact absurd rfl hne
  | cons e es =>
    rw [show mkClocksOf (e :: es)
        = .node "" [("clocks", .node "" (("", e) :: es.map (fun t => ("", t))))] from rfl]
    simp [ptreeToJson, ptreeListToJsonKV, allKeysEmpty]

/-- The table-mode output of the clock renderer for a shaped clock tree:
header plus one formatted line per entry. -/
theorem print_clock_table_eq (ps : List (String × String)) (hne : ps ≠ []) :
    print_clock_info (mkClocksTree ps) false =
      .ok ("Clocks\n" ++ concatStrs (ps.map clockLine)) := by
  cases ps with
  | nil => exact absurd rfl hne
  | cons p ps =>
    have h1 : print_clock_info (mkClocksTree (p :: ps)) false
        = Except.bind (formatClockLines (List.map (fun p => ("", mkClock p.1 p.2)) (p :: ps)))
            (fun lines => Except.ok ("Clocks\n" ++ lines)) := rfl
    rw [h1, formatClockLines_map]
    rfl

/-- A string whose first character is not a capital C does not start with
"Clocks". -/
theorem startsWith_clocks_of_take (s : String)
    (hc : (s.data.take 1 == ['C']) = false) :
    startsWithStr s "Clocks" = false := by
  unfold startsWithStr
  cases hd : s.data with
  | nil => rfl
  | cons c l =>
    rw [hd] at hc
    have e1 : (List.take 1 (c :: l) == ['C']) = ((c == 'C') && true) := rfl
    rw [e1] at hc
    cases hcc : (c == 'C') with
    | true => rw [hcc] at hc; simp at hc
    | false =>
      show ((c :: List.take 5 l) == 'C' :: 'l' :: 'o' :: 'c' :: 'k' :: 's' :: []) = false
      show ((c == 'C') && (List.take 5 l == 'l' :: 'o' :: 'c' :: 'k' :: 's' :: [])) = false
      rw [hcc]
      rfl

/-- The pretty JSON document for any ptree opens with a quote, a bracket
or a brace, never with the "Clocks" header. -/
theorem write_json_no_clocks_header (pt : Ptree) :
    startsWithStr (write_json pt) "Clocks" = false := by
  unfold write_json
  cases hj : ptreeToJson pt with
  | str s =>
    have h : renderJson (Json.str s) 0 = "\"" ++ createEscapes s ++ "\"" := by
      simp [renderJson]
    apply startsWith_clocks_of_take
    rw [h]
    rfl
  | arr es =>
    have h : renderJson (Json.arr es) 0
        = "[\n" ++ renderJsonList es 1 ++ "\n" ++ fourSpaces 0 ++ "]" := by
      simp [renderJson]
    apply startsWith_clocks_of_take
    rw [h]
    rfl
  | obj ms =>
    have h : renderJson (Json.obj ms) 0
        = "\x7b\n" ++ renderJsonMembers ms 1 ++ "\n" ++ fourSpaces 0 ++ "\x7d" := by
      simp [renderJson]
    apply startsWith_clocks_of_take
    rw [h]
    rfl

/-- Any extension of the header text still starts with "Clocks". -/
theorem startsWith_header (s : String) :
    startsWithStr ("Clocks\n" ++ s) "Clocks" = true := rfl

/-- Reading the six fields of a shaped context succeeds and yields the
row in source order. -/
theorem contextRow_mkContext (c : TelemetryCtx) :
    contextRow (mkContext c) = .ok (ctxRow c) := rfl

/-- The telemetry loop appends one row per context, in iteration
order. -/
theorem addTelemetryRows_map (ctxs : List TelemetryCtx) (t : Table2D) :
    addTelemetryRows (ctxs.map (fun c => ("ctx", mkContext c))) t
      = .ok ⟨t.headers, t.entries ++ ctxs.map ctxRow⟩ := by
  induction ctxs generalizing t with
  | nil => simp [addTelemetryRows]
  | cons c cs ih =>
    have h1 : addTelemetryRows ((c :: cs).map (fun c => ("ctx", mkContext c))) t
        = addTelemetryRows (cs.map (fun c => ("ctx", mkContext c)))
            (t.addEntry (ctxRow c)) := rfl
    rw [h1, ih]
    simp [Table2D.addEntry]

/-- A line carrying the two-space margin starts with it. -/
theorem startsWith_margin (s : String) : startsWithStr ("  " ++ s) "  " = true := rfl

/-- A list is a Boolean prefix of itself extended on the right. -/
theorem isPrefixOf_self_append (p b : List Char) : p.isPrefixOf (p ++ b) = true := by
  induction p with
  | nil => simp
  | cons c cs ih => simp [List.isPrefixOf, ih]

/-- A list occurs inside any surrounding of itself. -/
theorem listHasInfix_append (p a b : List Char) :
    listHasInfix p (a ++ (p ++ b)) = true := by
  induction a with
  | nil =>
    show listHasInfix p (p ++ b) = true
    cases hpb : p ++ b with
    | nil =>
      rcases List.append_eq_nil.mp hpb with ⟨hp, _⟩
      subst hp
      rfl
    | cons c t =>
      show (p.isPrefixOf (c :: t) || listHasInfix p t) = true
      rw [← hpb, isPrefixOf_self_append]
      rfl
  | cons x xs ih =>
    show (p.isPrefixOf (x :: (xs ++ (p ++ b))) || listHasInfix p (xs ++ (p ++ b))) = true
    rw [ih]
    simp

/-- A substring occurs in any string assembled around it. -/
theorem containsStr_of_split (a p b : String) : containsStr (a ++ (p ++ b)) p = true := by
  unfold containsStr
  rw [data_append, data_append]
  exact listHasInfix_append p.data a.data b.data

end Lemmas

/-- Claim C1 counterexample: with the json flag set and one clock entry,
print_clock_info writes only the JSON document, which does not start with
the "Clocks" header line — the header sits in the stringstream `ss` that
the json branch never flushes. -/
theorem c1_header_counterexample :
    print_clock_info (mkClocksTree [("h_clock", "800")]) true
      = .ok (write_json (mkClocksTree [("h_clock", "800")]))
    ∧ startsWithStr (write_json (mkClocksTree [("h_clock", "800")])) "Clocks" = false :=
  ⟨rfl, write_json_no_clocks_header _⟩

/-- Claim C1 as amended: the output starts with the "Clocks" header line
in the empty-data branch and in table mode, but in JSON mode with
non-empty data the output is the JSON document alone, which does not
start with the header. -/
theorem c1_header_amended (ps : List (String × String)) (b : Bool) :
    (ps = [] →
      print_clock_info (mkClocksTree ps) b =
          .ok "Clocks\n  No clock information available\n\n"
        ∧ startsWithStr "Clocks\n  No clock information available\n\n" "Clocks" = true)
    ∧ (ps ≠ [] → b = false →
      print_clock_info (mkClocksTree ps) b =
          .ok ("Clocks\n" ++ concatStrs (ps.map clockLine))
        ∧ startsWithStr ("Clocks\n" ++ concatStrs (ps.map clockLine)) "Clocks" = true)
    ∧ (ps ≠ [] → b = true →
      print_clock_info (mkClocksTree ps) b = .ok (write_json (mkClocksTree ps))
        ∧ startsWithStr (write_json (mkClocksTree ps)) "Clocks" = false) := by
  refine ⟨?_, ?_, ?_⟩
  · intro h
    subst h
    exact ⟨rfl, by decide⟩
  · intro hne hb
    subst hb
    exact ⟨print_clock_table_eq ps hne, startsWith_header _⟩
  · intro hne hb
    subst hb
    refine ⟨?_, write_json_no_clocks_header _⟩
    cases ps with
    | nil => exact absurd rfl hne
    | cons p ps => rfl

/-- Witness for the amended C1 at a concrete one-entry tree in JSON
mode. -/
theorem c1_header_amended_witness :
    print_clock_info (mkClocksTree [("a", "1")]) true
      = .ok (write_json (mkClocksTree [("a", "1")]))
    ∧ startsWithStr (write_json (mkClocksTree [("a", "1")])) "Clocks" = false :=
  (c1_header_amended [("a", "1")] true).2.2 (by simp) rfl

/-- Claim C2: for an empty clock-info structure the renderer output is
exactly "Clocks\n  No clock information available\n\n", for either value
of the json flag. -/
theorem c2_empty_clock_output (ct : Ptree) (b : Bool)
    (h : (ct.get_child "clocks" emptyPtree).isEmpty = true) :
    print_clock_info ct b = .ok "Clocks\n  No clock information available\n\n" := by
  simp [print_clock_info, h]

/-- Witness for C2 at the concrete empty clock tree. -/
theorem c2_empty_clock_output_witness :
    ((mkClocksTree []).get_child "clocks" emptyPtree).isEmpty = true
    ∧ print_clock_info (mkClocksTree []) true =
        .ok "Clocks\n  No clock information available\n\n" :=
  ⟨rfl, c2_empty_clock_output (mkClocksTree []) true rfl⟩

/-- Claim C5: for a non-empty clock-info structure with the json flag
set, the renderer writes exactly the pretty-printed JSON document of the
whole fetched structure (no table output), and the "clocks" member of that document
member is an array with one element per fetched entry. -/
theorem c5_clock_json (entries : List Ptree) (hne : entries ≠ []) :
    print_clock_info (mkClocksOf entries) true = .ok (write_json (mkClocksOf entries))
    ∧ ptreeToJson (mkClocksOf entries)
        = .obj [("clocks", .arr (ptreeListToJson (entries.map (fun t => ("", t)))))]
    ∧ (ptreeListToJson (entries.map (fun t => ("", t)))).length = entries.length := by
  refine ⟨?_, ptreeToJson_mkClocksOf entries hne, ?_⟩
  · cases entries with
    | nil => exact absurd rfl hne
    | cons e es => rfl
  · rw [ptreeListToJson_length]
    simp

/-- Witness for C5 at a concrete one-entry clock tree. -/
theorem c5_clock_json_witness :
    print_clock_info (mkClocksOf [mkClock "h_clock" "800"]) true =
      .ok (write_json (mkClocksOf [mkClock "h_clock" "800"]))
    ∧ ptreeToJson (mkClocksOf [mkClock "h_clock" "800"])
        = .obj [("clocks",
            .arr (ptreeListToJson ([mkClock "h_clock" "800"].map (fun t => ("", t)))))]
    ∧ (ptreeListToJson ([mkClock "h_clock" "800"].map (fun t => ("", t)))).length = 1 :=
  c5_clock_json [mkClock "h_clock" "800"] (by simp)

/-- Claim C6: for a non-empty clock-info structure with the json flag
unset, the renderer emits, after the header, one line per entry formatted
as two spaces, the id left-justified in a 23-character field, ": ", the
frequency right-justified in a 3-character field, and " MHz". -/
theorem c6_clock_table_lines (ps : List (String × String)) (hne : ps ≠ []) :
    print_clock_info (mkClocksTree ps) false =
      .ok ("Clocks\n" ++ concatStrs (ps.map clockLine))
    ∧ (ps.map clockLine).length = ps.length := by
  exact ⟨print_clock_table_eq ps hne, by simp⟩

/-- Witness for C6 at a concrete two-entry clock tree. -/
theorem c6_clock_table_lines_witness :
    print_clock_info (mkClocksTree [("h_clock", "800"), ("m_clock", "1")]) false =
      .ok ("Clocks\n" ++ concatStrs ([("h_clock", "800"), ("m_clock", "1")].map clockLine))
    ∧ ([("h_clock", "800"), ("m_clock", "1")].map clockLine).length = 2 :=
  c6_clock_table_lines [("h_clock", "800"), ("m_clock", "1")] (by simp)

/-- Claim C7: for a telemetry set with N contexts and the json flag
unset, the rendered table has a header row plus exactly N data rows, six
columns in the fixed order User Task, Ctx ID, Set Hints, Unset Hints,
Checkpoint Events, Frame Boundary Events, one row per context in
iteration order, and every printed line carries the two-space left
margin. -/
theorem c7_telemetry_table (ctxs : List TelemetryCtx) (hne : ctxs ≠ []) :
    print_preemption_telemetry (mkTelemetryTree ctxs) false =
      .ok ("Premption Telemetry Data\n" ++ (preemptionTable ctxs).toString "  " ++ "\n")
    ∧ (preemptionTable ctxs).headers.map (fun h => h.name)
        = ["User Task", "Ctx ID", "Set Hints", "Unset Hints", "Checkpoint Events",
           "Frame Boundary Events"]
    ∧ ((preemptionTable ctxs).toLines "  ").length = ctxs.length + 1
    ∧ (preemptionTable ctxs).entries = ctxs.map ctxRow
    ∧ (∀ r ∈ (preemptionTable ctxs).entries, r.length = 6)
    ∧ (∀ l ∈ (preemptionTable ctxs).toLines "  ", startsWithStr l "  " = true) := by
  refine ⟨?_, rfl, ?_, rfl, ?_, ?_⟩
  · cases ctxs with
    | nil => exact absurd rfl hne
    | cons c cs =>
      have h1 : print_preemption_telemetry (mkTelemetryTree (c :: cs)) false
          = Except.bind
              (addTelemetryRows ((c :: cs).map (fun c => ("ctx", mkContext c)))
                ⟨preempt_headers, []⟩)
              (fun t => .ok ("Premption Telemetry Data\n" ++ t.toString "  " ++ "\n")) := rfl
      rw [h1, addTelemetryRows_map]
      rfl
  · simp [preemptionTable, Table2D.toLines]
  · intro r hr
    simp only [preemptionTable, List.mem_map] at hr
    obtain ⟨c, _, rfl⟩ := hr
    rfl
  · intro l hl
    simp only [preemptionTable, Table2D.toLines, List.mem_cons, List.mem_map] at hl
    rcases hl with h | ⟨r, _, rfl⟩
    · rw [h]
      exact startsWith_margin _
    · exact startsWith_margin _

/-- Witness for C7 at a concrete single-context telemetry set. -/
theorem c7_telemetry_table_witness :
    print_preemption_telemetry (mkTelemetryTree [⟨"task0", "0", "1", "2", "3", "4"⟩]) false =
      .ok ("Premption Telemetry Data\n"
        ++ (preemptionTable [⟨"task0", "0", "1", "2", "3", "4"⟩]).toString "  " ++ "\n")
    ∧ (preemptionTable [⟨"task0", "0", "1", "2", "3", "4"⟩]).headers.map (fun h => h.name)
        = ["User Task", "Ctx ID", "Set Hints", "Unset Hints", "Checkpoint Events",
           "Frame Boundary Events"]
    ∧ ((preemptionTable [⟨"task0", "0", "1", "2", "3", "4"⟩]).toLines "  ").length = 1 + 1
    ∧ (preemptionTable [⟨"task0", "0", "1", "2", "3", "4"⟩]).entries
        = [⟨"task0", "0", "1", "2", "3", "4"⟩].map ctxRow
    ∧ (∀ r ∈ (preemptionTable [⟨"task0", "0", "1", "2", "3", "4"⟩]).entries, r.length = 6)
    ∧ (∀ l ∈ (preemptionTable [⟨"task0", "0", "1", "2", "3", "4"⟩]).toLines "  ",
        startsWithStr l "  " = true) :=
  c7_telemetry_table [⟨"task0", "0", "1", "2", "3", "4"⟩] (by simp)

/-- A fixed external world for concrete runs: device lookup always
succeeds, and the two fetchers return small shaped trees. -/
def w0 : World :=
  ⟨fun _ => .ok (), mkClocksTree [("h_clock", "800")],
   mkTelemetryTree [⟨"t", "0", "1", "2", "3", "4"⟩]⟩

/-- Claim C3: when the parsed report name is neither "clocks" nor
"preemption" (case-insensitively), and the run reaches dispatch (help not
requested, mode non-empty, device resolved), execute writes exactly one
stderr diagnostic — containing the invalid-report text with the offending name — prints
usage, signals cancellation, and invokes neither renderer. -/
theorem c3_invalid_report (w : World) (ro : List String) (opts : ParsedOpts)
    (hh : ro.contains "--help" = false) (hm : opts.m_help = false)
    (hne : opts.m_action ≠ "")
    (hok : w.lookup (strToLower opts.m_device) = .ok ())
    (hc : iequals opts.m_action "clocks" = false)
    (hp : iequals opts.m_action "preemption" = false) :
    execute w ro opts =
      ([.getDevice (strToLower opts.m_device) true,
        .stderrWrite ("\nERROR: "
          ++ ("Invalid report value: \x27" ++ opts.m_action ++ "\x27\n") ++ "\n"),
        .printHelp], .cancelled)
    ∧ ((execute w ro opts).1.filter isStderrEvent).length = 1
    ∧ containsStr
        ("\nERROR: " ++ ("Invalid report value: \x27" ++ opts.m_action ++ "\x27\n") ++ "\n")
        ("Invalid report value: \x27" ++ opts.m_action ++ "\x27") = true
    ∧ (execute w ro opts).1.filter isRenderEvent = []
    ∧ Event.printHelp ∈ (execute w ro opts).1 := by
  have h0 : execute w ro opts =
      ([.getDevice (strToLower opts.m_device) true,
        .stderrWrite ("\nERROR: "
          ++ ("Invalid report value: \x27" ++ opts.m_action ++ "\x27\n") ++ "\n"),
        .printHelp], .cancelled) := by
    have hh2 : ¬"--help" ∈ ro := by simpa using hh
    simp [execute, hh2, hm, hne, hok, hc, hp]
  have hmsg : ("\nERROR: "
        ++ ("Invalid report value: \x27" ++ opts.m_action ++ "\x27\n") ++ "\n")
      = "\nERROR: "
        ++ (("Invalid report value: \x27" ++ opts.m_action ++ "\x27") ++ "\n\n") := by
    apply String.ext
    simp [data_append]
  refine ⟨h0, ?_, ?_, ?_, ?_⟩
  · rw [h0]
    rfl
  · rw [hmsg]
    exact containsStr_of_split _ _ _
  · rw [h0]
    rfl
  · rw [h0]
    simp

/-- Witness for C3 at the report name "bogus". -/
theorem c3_invalid_report_witness :
    execute w0 ["bogus"] ⟨"0000:D8:00.0", "bogus", false, false⟩ =
      ([.getDevice (strToLower "0000:D8:00.0") true,
        .stderrWrite ("\nERROR: "
          ++ ("Invalid report value: \x27" ++ "bogus" ++ "\x27\n") ++ "\n"),
        .printHelp], .cancelled)
    ∧ ((execute w0 ["bogus"] ⟨"0000:D8:00.0", "bogus", false, false⟩).1.filter
        isStderrEvent).length = 1
    ∧ containsStr
        ("\nERROR: " ++ ("Invalid report value: \x27" ++ "bogus" ++ "\x27\n") ++ "\n")
        ("Invalid report value: \x27" ++ "bogus" ++ "\x27") = true
    ∧ (execute w0 ["bogus"] ⟨"0000:D8:00.0", "bogus", false, false⟩).1.filter
        isRenderEvent = []
    ∧ Event.printHelp ∈ (execute w0 ["bogus"] ⟨"0000:D8:00.0", "bogus", false, false⟩).1 :=
  c3_invalid_report w0 ["bogus"] ⟨"0000:D8:00.0", "bogus", false, false⟩
    rfl rfl (by decide) rfl (by decide) (by decide)

/-- Claim C4: dispatch is case-insensitive — any casing of "clocks"
invokes exactly the clock renderer and any casing of "preemption" invokes
exactly the telemetry renderer. -/
theorem c4_case_insensitive_dispatch (w : World) (ro : List String) (opts : ParsedOpts)
    (hh : ro.contains "--help" = false) (hm : opts.m_help = false)
    (hok : w.lookup (strToLower opts.m_device) = .ok ()) :
    (strToLower opts.m_action = "clocks" →
      (execute w ro opts).1.filter isRenderEvent = [.renderClocks opts.m_json])
    ∧ (strToLower opts.m_action = "preemption" →
      (execute w ro opts).1.filter isRenderEvent = [.renderTelemetry opts.m_json]) := by
  constructor
  · intro h
    have hne : opts.m_action ≠ "" := by
      intro e
      rw [e] at h
      exact absurd h (by decide)
    have hceq : iequals opts.m_action "clocks" = true := by
      unfold iequals
      rw [h]
      rfl
    have hh2 : ¬"--help" ∈ ro := by simpa using hh
    cases hpc : print_clock_info w.clocks opts.m_json <;>
      simp [execute, hh2, hm, hne, hok, hceq, hpc, isRenderEvent, List.filter]
  · intro h
    have hne : opts.m_action ≠ "" := by
      intro e
      rw [e] at h
      exact absurd h (by decide)
    have hceq : iequals opts.m_action "clocks" = false := by
      unfold iequals
      rw [h]
      rfl
    have hpeq : iequals opts.m_action "preemption" = true := by
      unfold iequals
      rw [h]
      rfl
    have hh2 : ¬"--help" ∈ ro := by simpa using hh
    cases hpt : print_preemption_telemetry w.telemetry opts.m_json <;>
      simp [execute, hh2, hm, hne, hok, hceq, hpeq, hpt, isRenderEvent, List.filter]

/-- Witness for C4 at the casings "CLOCKS" and "Preemption". -/
theorem c4_case_insensitive_dispatch_witness :
    (execute w0 [] ⟨"0000:D8:00.0", "CLOCKS", false, false⟩).1.filter isRenderEvent
      = [.renderClocks false]
    ∧ (execute w0 [] ⟨"0000:D8:00.0", "Preemption", false, true⟩).1.filter isRenderEvent
      = [.renderTelemetry true] :=
  ⟨(c4_case_insensitive_dispatch w0 [] ⟨"0000:D8:00.0", "CLOCKS", false, false⟩
      rfl rfl rfl).1 (by decide),
   (c4_case_insensitive_dispatch w0 [] ⟨"0000:D8:00.0", "Preemption", false, true⟩
      rfl rfl rfl).2 (by decide)⟩

/-- Claim C8: when help was not requested and the parsed mode argument is
empty, execute prints the required-argument error to stderr, prints
usage, signals cancellation, and never attempts device resolution (nor
any rendering). -/
theorem c8_missing_mode (w : World) (ro : List String) (opts : ParsedOpts)
    (hh : ro.contains "--help" = false) (hm : opts.m_help = false)
    (ha : opts.m_action = "") :
    execute w ro opts =
      ([.stderrWrite "ERROR: the required argument for option \x27--report\x27 is missing\n",
        .printHelp], .cancelled)
    ∧ (execute w ro opts).1.filter isGetDeviceEvent = []
    ∧ (execute w ro opts).1.filter isRenderEvent = [] := by
  have hh2 : ¬"--help" ∈ ro := by simpa using hh
  have h0 : execute w ro opts =
      ([.stderrWrite "ERROR: the required argument for option \x27--report\x27 is missing\n",
        .printHelp], .cancelled) := by
    simp [execute, hh2, hm, ha]
  exact ⟨h0, by rw [h0]; rfl, by rw [h0]; rfl⟩

/-- Witness for C8 with an absent mode argument. -/
theorem c8_missing_mode_witness :
    execute w0 [] ⟨"", "", false, false⟩ =
      ([.stderrWrite "ERROR: the required argument for option \x27--report\x27 is missing\n",
        .printHelp], .cancelled)
    ∧ (execute w0 [] ⟨"", "", false, false⟩).1.filter isGetDeviceEvent = []
    ∧ (execute w0 [] ⟨"", "", false, false⟩).1.filter isRenderEvent = [] :=
  c8_missing_mode w0 [] ⟨"", "", false, false⟩ rfl rfl rfl

/-- Claim C9: when the raw options contain "--help", execute prints usage
and returns successfully, with no device resolution and no rendering,
whatever the other parsed options say. -/
theorem c9_help_short_circuit (w : World) (ro : List String) (opts : ParsedOpts)
    (hh : ro.contains "--help" = true) :
    execute w ro opts = ([.printHelp], .success)
    ∧ (execute w ro opts).1.filter isGetDeviceEvent = []
    ∧ (execute w ro opts).1.filter isRenderEvent = [] := by
  have hh2 : "--help" ∈ ro := by simpa using hh
  have h0 : execute w ro opts = ([.printHelp], .success) := by
    simp [execute, hh2]
  exact ⟨h0, by rw [h0]; rfl, by rw [h0]; rfl⟩

/-- Witness for C9 with --help next to a mode argument and other flags
parsed. -/
theorem c9_help_short_circuit_witness :
    execute w0 ["--help", "clocks", "--json"] ⟨"0000:d8:00.0", "clocks", true, true⟩ =
      ([.printHelp], .success)
    ∧ (execute w0 ["--help", "clocks", "--json"]
        ⟨"0000:d8:00.0", "clocks", true, true⟩).1.filter isGetDeviceEvent = []
    ∧ (execute w0 ["--help", "clocks", "--json"]
        ⟨"0000:d8:00.0", "clocks", true, true⟩).1.filter isRenderEvent = [] :=
  c9_help_short_circuit w0 ["--help", "clocks", "--json"]
    ⟨"0000:d8:00.0", "clocks", true, true⟩ rfl

/-- Claim C10: every device-lookup call execute makes passes the
lower-cased device identifier (in the user domain), so device selection
does not depend on the letter case of the supplied identifier: two parses
differing only in the casing of the identifier run identically. -/
theorem c10_device_id_lowercased (w : World) (ro : List String) (opts : ParsedOpts) :
    (∀ idv dom, Event.getDevice idv dom ∈ (execute w ro opts).1 →
      idv = strToLower opts.m_device ∧ dom = true)
    ∧ (∀ d2, strToLower d2 = strToLower opts.m_device →
      execute w ro ⟨d2, opts.m_action, opts.m_help, opts.m_json⟩ = execute w ro opts) := by
  constructor
  · intro idv dom hmem
    unfold execute at hmem
    repeat' split at hmem
    all_goals cases hl : w.lookup (strToLower opts.m_device) <;> simp_all
  · intro d2 h
    cases opts with
    | mk dv ac hm js =>
      simp only at h
      unfold execute
      rw [h]

/-- Witness for C10: a mixed-case identifier reaches the lookup
lower-cased, and the mixed-case and lower-case parses run identically. -/
theorem c10_device_id_lowercased_witness :
    Event.getDevice (strToLower "0000:D8:00.0") true
        ∈ (execute w0 [] ⟨"0000:D8:00.0", "clocks", false, false⟩).1
    ∧ (strToLower "0000:D8:00.0" = strToLower "0000:D8:00.0" ∧ true = true)
    ∧ execute w0 [] ⟨"0000:D8:00.0", "clocks", false, false⟩
        = execute w0 [] ⟨"0000:d8:00.0", "clocks", false, false⟩ :=
  ⟨by decide,
   (c10_device_id_lowercased w0 [] ⟨"0000:D8:00.0", "clocks", false, false⟩).1
      (strToLower "0000:D8:00.0") true (by decide),
   (c10_device_id_lowercased w0 [] ⟨"0000:d8:00.0", "clocks", false, false⟩).2
      "0000:D8:00.0" (by decide)⟩

end OOReports
